import Mathlib

/-!
# monimejs — verification of the specified behaviour

Shallow embedding of the monimejs SDK (a TypeScript client for the Monime
payments API) and proofs of the spec's claims about it.

The repository ships two generations of the client:

* the legacy client (`src/payment-code.ts` — the `PaymentCode` class — and the
  legacy `MonimeClient`), which calls `fetch` directly and returns decoded
  responses and caught exceptions as data;
* the current client (`validation.ts` with the generic `validate` function,
  the resource modules such as `FinancialAccountModule`, and the dispatch core
  `src/http-client.ts`).

The dispatch core `src/http-client.ts` itself is not among the shipped source
files; only its callers, its type-level description and its task documents are.
Definitions for it below are modelled from the spec and are marked as such in
their doc comments.  Everything else is translated directly from the source.
-/

namespace Monime

/-- Scalar values as they occur in query parameters: JS strings, numbers and
booleans (numbers in the SDK's query parameters are integers: limits, counts). -/
inductive Scalar where
  | str (s : String)
  | num (n : Int)
  | bool (b : Bool)
deriving DecidableEq, Repr

/-- JS `String(x)` on a scalar: the natural textual representation. -/
def Scalar.toText : Scalar → String
  | .str s => s
  | .num n => toString n
  | .bool b => if b then "true" else "false"

/-- A JSON value, as decoded by `res.json()` / produced by `JSON.stringify`. -/
inductive Json where
  | null
  | bool (b : Bool)
  | num (n : Int)
  | str (s : String)
  | arr (elems : List Json)
  | obj (fields : List (String × Json))

/-! ## Validation (`src/validation.ts`, translated from the source)

`validate` runs valibot's `safeParse` and converts a failed parse's issues via
`to_validation_error`.  The valibot engine itself is external to the repo (a
dependency), so a schema is embedded as the function `α → ParseResult` that
`safeParse` denotes: a success flag plus the list of raw issues. -/

/-- A raw valibot issue (`v.BaseIssue`): message, optional path of keys, and the
offending input value. -/
structure VIssue where
  message : String
  path : Option (List String) := none
  input : Option Scalar := none
deriving DecidableEq, Repr

/-- The result of `v.safeParse(schema, data)`: success flag and issue list. -/
structure ParseResult where
  success : Bool
  issues : List VIssue
deriving DecidableEq, Repr

/-- A structured validation issue (`ValidationIssue` in `errors.ts`). -/
structure ValidationIssue where
  message : String
  field : String
  value : Option Scalar := none
deriving DecidableEq, Repr

/-- `MonimeValidationError` from `errors.ts`: a message plus the issue list. -/
structure MonimeValidationError where
  message : String
  issues : List ValidationIssue
deriving DecidableEq, Repr

/-- The per-issue conversion performed inside `to_validation_error`:
`{ message: issue.message, field: issue.path?.map(p => p.key).join(".") ?? "unknown",
value: issue.input }`. -/
def convert_issue (issue : VIssue) : ValidationIssue :=
  { message := issue.message
    field := (issue.path.map (fun ks => String.intercalate "." ks)).getD "unknown"
    value := issue.input }

/-- `to_validation_error` from `src/validation.ts`: converts valibot issues to a
`MonimeValidationError`.  An empty issue list yields the fallback single issue
`{ message: "Validation failed", field: "unknown" }`; otherwise every issue is
converted, and the message is the first issue's message (one issue) or
`Validation failed with N errors` (several). -/
def to_validation_error (issues : List VIssue) : MonimeValidationError :=
  if issues.length = 0 then
    { message := "Validation failed"
      issues := [{ message := "Validation failed", field := "unknown" }] }
  else
    let validation_issues := issues.map convert_issue
    let first_issue := validation_issues.head?
    let message :=
      if validation_issues.length = 1 then
        (first_issue.map (·.message)).getD "undefined"
      else
        s!"Validation failed with {validation_issues.length} errors"
    { message := message, issues := validation_issues }

/-- `validate` from `src/validation.ts`: `safeParse` the data against the
schema and throw `to_validation_error(result.issues)` when it fails. -/
def validate {α : Type} (schema : α → ParseResult) (data : α) :
    Except MonimeValidationError Unit :=
  let result := schema data
  if result.success then .ok () else .error (to_validation_error result.issues)

/-- The fallback issue used by `to_validation_error` on an empty issue list. -/
def fallback_issue : ValidationIssue :=
  { message := "Validation failed", field := "unknown" }

/-! ## The legacy client (`src/payment-code.ts`, translated from the source)

The legacy `PaymentCode` class builds one `options` object per method call
(evaluating `crypto.randomUUID()` exactly once, in the header literal), performs
a single `fetch`, and returns `await res.json()` as-is — no inspection of the
HTTP status.  Its `catch` branch returns
`{ success: false, messages: [e.message], result: null }` as an ordinary value.
The effects (`crypto.randomUUID`, `fetch` + `res.json()`) are passed in
explicitly: the generated UUID as a string, and the combined fetch/decode
outcome as a `FetchOutcome`. -/

/-- `ClientOptions` from the legacy `types.ts`. -/
structure ClientOptions where
  spaceId : String
  accessToken : String

/-- The combined effect of `await fetch(...)` then `await res.json()`: either a
response with an HTTP status and a decoded JSON body, or a thrown exception
(network failure, invalid JSON) carrying `e.message`. -/
inductive FetchOutcome where
  | resolved (status : Nat) (body : Json)
  | thrown (message : String)

/-- A `fetch` init object: method, header list in construction order, body. -/
structure RequestInit where
  method : String
  headers : List (String × String)
  body : Option Json := none

/-- The `options` literal built at the top of
`PaymentCode.createPaymentCode` (`src/payment-code.ts`): method POST, the four
headers in source order with `crypto.randomUUID()` evaluated once as `uuid`,
and the JSON-stringified request body. -/
def createPaymentCode_options (config : ClientOptions) (uuid : String)
    (body : Json) : RequestInit :=
  { method := "POST"
    headers :=
      [("Idempotency-Key", uuid),
       ("Monime-Space-Id", config.spaceId),
       ("Authorization", "Bearer " ++ config.accessToken),
       ("Content-Type", "application/json")]
    body := some body }

/-- The value produced by the `catch` branch of both legacy methods:
`{ success: false, messages: [_e.message], result: null }`. -/
def legacy_catch_value (message : String) : Json :=
  .obj [("success", .bool false), ("messages", .arr [.str message]), ("result", .null)]

/-- `PaymentCode.createPaymentCode`, given the outcome of its single
`fetch`/`res.json()`: the decoded body is returned unconditionally (the status
is never inspected), and a thrown exception is caught and returned as data.
The error channel of the `Except` is the structured-error channel the spec
talks about; the source never uses it (the method never throws). -/
def createPaymentCode (outcome : FetchOutcome) :
    Except MonimeValidationError Json :=
  match outcome with
  | .resolved _status data => .ok data
  | .thrown message => .ok (legacy_catch_value message)

/-- `PaymentCode.getPaymentCode`: the same shape — single GET `fetch`, body
returned as-is whatever the status, exceptions caught and returned as data. -/
def getPaymentCode (outcome : FetchOutcome) :
    Except MonimeValidationError Json :=
  match outcome with
  | .resolved _status data => .ok data
  | .thrown message => .ok (legacy_catch_value message)

/-! ## The request dispatch core

`src/http-client.ts` (the `MonimeHttpClient` class: `request`,
`_execute_with_retry`, `_calculate_retry_delay`, header and query construction)
is not among the shipped source files, so the definitions in this section are
modelled from the spec, as their doc comments state. -/

/-- Modelled from the spec: the retryability classification of the absent
`src/http-client.ts` — "status is 429 or in {500,502,503,504}"
(spec §4.1 step 2; the same list appears in docs/tasks/RATE_LIMITING.md). -/
def retryable_status (s : Nat) : Bool :=
  s == 429 || s == 500 || s == 502 || s == 503 || s == 504

/-- The classified outcome of one attempt: success payload, Api failure with
status and optional retry-after hint, network failure, timeout, cancellation. -/
inductive AttemptOutcome where
  | success (payload : Json)
  | apiError (status : Nat) (retryAfter : Option Nat)
  | networkError
  | timeoutError
  | cancelled

/-- Modelled from the spec: failures are retryable when the status is
retryable or the failure is a network failure; timeouts and cancellations are
never retried (spec §4.1 step 2, §7). -/
def retryable : AttemptOutcome → Bool
  | .apiError s _ => retryable_status s
  | .networkError => true
  | _ => false

/-- What one dispatch resolves to: the decoded success payload, or the raised
classified error. -/
inductive DispatchResult where
  | ok (payload : Json)
  | err (e : AttemptOutcome)

/-- Modelled from the spec: the retry loop of the absent `_execute_with_retry`
(spec §4.1 steps 1–5).  `outcomes i` is the classified outcome of attempt `i`
(the environment's behaviour, passed in explicitly); `remaining` is the retry
budget still available.  A success or a non-retryable failure resolves
immediately; a retryable failure with budget left retries; an exhausted budget
raises the last classified error.  The pair returned is the resolution together
with the index one past the last attempt made. -/
def retry_loop (outcomes : Nat → AttemptOutcome) (attempt : Nat) :
    Nat → DispatchResult × Nat
  | 0 =>
    match outcomes attempt with
    | .success p => (.ok p, attempt + 1)
    | o => (.err o, attempt + 1)
  | r + 1 =>
    match outcomes attempt with
    | .success p => (.ok p, attempt + 1)
    | o =>
      if retryable o then retry_loop outcomes (attempt + 1) r
      else (.err o, attempt + 1)

/-- Modelled from the spec: one logical call through the dispatch core with a
`max_retries` budget — attempt 0 runs first, at most `max_retries` retries
follow.  Returns the resolution and the total number of attempts made. -/
def dispatch (outcomes : Nat → AttemptOutcome) (max_retries : Nat) :
    DispatchResult × Nat :=
  retry_loop outcomes 0 max_retries

/-- Whether an attempt outcome is a 2xx success. -/
def is_success : AttemptOutcome → Bool
  | .success _ => true
  | _ => false

/-- A dispatch resolution agrees with an attempt outcome: the success payload
is returned for a success, the classified error is raised for a failure. -/
def result_matches (r : DispatchResult) : AttemptOutcome → Prop
  | .success p => r = .ok p
  | o => r = .err o

/-- Modelled from the spec: `_calculate_retry_delay` of the absent
`src/http-client.ts`, ignoring jitter as the claim does — exponential delay
`base_delay × backoff_multiplier ^ attempt`, capped at the backoff ceiling
(spec §4.1 step 3). -/
def calculate_retry_delay (retry_delay retry_backoff max_backoff attempt : Nat) : Nat :=
  min (retry_delay * retry_backoff ^ attempt) max_backoff

/-- Modelled from the spec: the state-mutating (create/update/delete-equivalent)
HTTP methods carrying an idempotency key (spec §3 invariant, §6 wire contract). -/
def is_mutating (method : String) : Bool :=
  method == "POST" || method == "PATCH" || method == "PUT" || method == "DELETE"

/-- Modelled from the spec: the idempotency key of one logical call — the
caller-supplied key when present, else the key generated fresh once for this
logical call (spec §3 invariant).  `fresh_key` stands for the single
generation performed before the attempt loop. -/
def resolve_idempotency_key (caller_key : Option String) (fresh_key : String) : String :=
  caller_key.getD fresh_key

/-- Modelled from the spec: per-attempt header construction of the absent
dispatch core (spec §4.1 "Header construction (per attempt)") — authorization,
space identifier, content-type when a body is present, the logical call's
idempotency key for mutating methods, caller headers merged last.  The
`attempt` index is a parameter because headers are rebuilt per attempt, but the
key used is the one resolved once per logical call. -/
def attempt_headers (access_token space_id : String) (method : String)
    (has_body : Bool) (caller_key : Option String) (fresh_key : String)
    (custom_headers : List (String × String)) (_attempt : Nat) :
    List (String × String) :=
  [("Authorization", "Bearer " ++ access_token),
   ("Monime-Space-Id", space_id)]
  ++ (if has_body then [("Content-Type", "application/json")] else [])
  ++ (if is_mutating method then
        [("Idempotency-Key", resolve_idempotency_key caller_key fresh_key)]
      else [])
  ++ custom_headers

/-- The idempotency-key values present in a header list. -/
def idempotency_keys (headers : List (String × String)) : List String :=
  (headers.filter (fun h => h.1 == "Idempotency-Key")).map (·.2)

/-- Modelled from the spec: the query-string encoder of the absent
`src/http-client.ts` (`search_params` / `query_string`; spec §4.1 "Query/body
encoding") — entries with an undefined value are omitted entirely, present
scalars are stringified with their natural textual representation, and a
non-empty parameter set is prefixed with `?`. -/
def build_query (params : List (String × Option Scalar)) : String :=
  let present := params.filterMap
    (fun p => p.2.map (fun v => p.1 ++ "=" ++ v.toText))
  if present.isEmpty then "" else "?" ++ String.intercalate "&" present

/-! ## The current resource modules (`src/financial-account.ts`, translated
from the source — the file is among the shipped sources, as the unnamed module
importing `MonimeHttpClient` and exporting `FinancialAccountModule`) -/

/-- One value of the hexadecimal alphabet used by percent-encoding. -/
def hex_digit (n : Nat) : Char :=
  if n < 10 then Char.ofNat (48 + n) else Char.ofNat (55 + n)

/-- JS `encodeURIComponent`: every UTF-8 byte outside the unreserved set
`A–Z a–z 0–9 - _ . ! ~ * ' ( )` is percent-encoded. -/
def encodeURIComponent (s : String) : String :=
  String.join <| s.toUTF8.toList.map fun b =>
    let n := b.toNat
    let c := Char.ofNat n
    if n < 128 &&
        (c.isAlphanum || c == '-' || c == '_' || c == '.' || c == '!' ||
         c == '~' || c == '*' || c == '\'' || c == '(' || c == ')') then
      String.singleton c
    else
      String.singleton '%' ++ String.singleton (hex_digit (n / 16))
        ++ String.singleton (hex_digit (n % 16))

/-- The request descriptor a resource module hands to
`this.http_client.request({...})`: method, path, optional query-parameter
mapping, optional body. -/
structure HttpRequest where
  method : String
  path : String
  params : Option (List (String × Option Scalar)) := none
  body : Option Json := none

/-- Modelled from the spec: `IdSchema` lives in `src/schemas.ts`, which is not
among the shipped source files.  Per the spec §6 ("client-side prefix checking
was deliberately removed") and docs/tasks/ID_PREFIX_VALIDATION.md ("The core
validation (`v.nonEmpty(\x22id is required\x22)`) remains in place"), the schema
is `v.pipe(v.string(), v.nonEmpty("id is required"))`: the only check is
non-emptiness — no resource-kind prefix is inspected. -/
def IdSchema_parse (id : String) : ParseResult :=
  if id.isEmpty then
    { success := false
      issues := [{ message := "id is required", path := none, input := some (.str id) }] }
  else
    { success := true, issues := [] }

/-- `validateId` from the current `validation.ts` generation: `validate` against
`IdSchema`. -/
def validateId (id : String) : Except MonimeValidationError Unit :=
  validate IdSchema_parse id

/-- `GetFinancialAccountParams` from `types.ts`: the optional `withBalance`. -/
structure GetFinancialAccountParams where
  withBalance : Option Bool := none

/-- `ListFinancialAccountsParams` from `types.ts`: the five optional filters
read by `FinancialAccountModule.list`. -/
structure ListFinancialAccountsParams where
  uvan : Option String := none
  reference : Option String := none
  withBalance : Option Bool := none
  limit : Option Int := none
  after : Option String := none

/-- `FinancialAccountModule.get`, translated from the source: when
`shouldValidate`, run `validateId(id)` (throwing on failure); then build the
query-parameter object (`{ withBalance: params.withBalance }` when params is
present, else undefined) and call the dispatch core with GET and the encoded
path.  The result is the request descriptor handed to `http_client.request`. -/
def FinancialAccountModule.get (shouldValidate : Bool) (id : String)
    (params : Option GetFinancialAccountParams) :
    Except MonimeValidationError HttpRequest := do
  if shouldValidate then
    validateId id
  let query_params := params.map fun p =>
    [("withBalance", p.withBalance.map Scalar.bool)]
  pure { method := "GET"
         path := "/financial-accounts/" ++ encodeURIComponent id
         params := query_params }

/-- `FinancialAccountModule.update`, translated from the source: when
`shouldValidate`, run `validateId(id)` then
`validateUpdateFinancialAccountInput(input)` (each throwing on failure); then
call the dispatch core with PATCH, the encoded path and the input as body.
`UpdateFinancialAccountInputSchema` lives in the absent `src/schemas.ts`, so
the parse function the input validation denotes is a parameter. -/
def FinancialAccountModule.update (shouldValidate : Bool) (id : String)
    (inputSchema : Json → ParseResult) (input : Json) :
    Except MonimeValidationError HttpRequest := do
  if shouldValidate then
    validateId id
    validate inputSchema input
  pure { method := "PATCH"
         path := "/financial-accounts/" ++ encodeURIComponent id
         body := some input }

/-- `FinancialAccountModule.list`, translated from the source: when
`shouldValidate && params?.limit !== undefined`, run `validateLimit` on the
limit (throwing on failure) — nothing else is validated; then build the
query-parameter object with the five fields in source order and call the
dispatch core with GET `/financial-accounts`.  `LimitSchema` lives in the
absent `src/schemas.ts`, so the parse function `validateLimit` denotes is a
parameter. -/
def FinancialAccountModule.list (shouldValidate : Bool)
    (limitSchema : Int → ParseResult)
    (params : Option ListFinancialAccountsParams) :
    Except MonimeValidationError HttpRequest := do
  match shouldValidate, params.bind (·.limit) with
  | true, some l => validate limitSchema l
  | _, _ => pure ()
  let query_params := params.map fun p =>
    [("uvan", p.uvan.map Scalar.str),
     ("reference", p.reference.map Scalar.str),
     ("withBalance", p.withBalance.map Scalar.bool),
     ("limit", p.limit.map Scalar.num),
     ("after", p.after.map Scalar.str)]
  pure { method := "GET"
         path := "/financial-accounts"
         params := query_params }

end Monime

/-! ## Theorems -/

namespace Monime

theorem except_pure_def {ε α : Type} (a : α) : (pure a : Except ε α) = .ok a := rfl

theorem except_ok_bind {ε α β : Type} (a : α) (f : α → Except ε β) :
    (Except.ok a >>= f : Except ε β) = f a := rfl

theorem except_error_bind {ε α β : Type} (e : ε) (f : α → Except ε β) :
    (Except.error e >>= f : Except ε β) = .error e := rfl

theorem except_map_ok {ε α β : Type} (f : α → β) (a : α) :
    (f <$> Except.ok a : Except ε β) = .ok (f a) := rfl

theorem except_map_error {ε α β : Type} (f : α → β) (e : ε) :
    (f <$> Except.error e : Except ε β) = .error e := rfl

theorem to_validation_error_nil :
    to_validation_error [] = { message := "Validation failed", issues := [fallback_issue] } := by
  rfl

theorem to_validation_error_issues_of_ne_nil (issues : List VIssue) (h : issues ≠ []) :
    (to_validation_error issues).issues = issues.map convert_issue := by
  unfold to_validation_error
  rw [if_neg (by simpa [List.length_eq_zero] using h)]

theorem validate_error_iff {α : Type} (schema : α → ParseResult) (data : α)
    (e : MonimeValidationError) :
    validate schema data = .error e ↔
      ((schema data).success = false ∧ e = to_validation_error (schema data).issues) := by
  unfold validate
  cases h : (schema data).success <;> simp [h]
  exact eq_comm

/-- C6.  For every input that does not conform to its schema — `safeParse`
reports failure — `validate` raises a `MonimeValidationError` whose issue list
contains every field-level issue the parser found (each converted by the
message/field/value mapping of `to_validation_error`), not only the first. -/
theorem C6_validate_raises_every_issue {α : Type} (schema : α → ParseResult)
    (data : α) (h : (schema data).success = false) :
    ∃ e : MonimeValidationError, validate schema data = .error e ∧
      ∀ issue ∈ (schema data).issues, convert_issue issue ∈ e.issues := by
  refine ⟨to_validation_error (schema data).issues, ?_, ?_⟩
  · exact (validate_error_iff schema data _).mpr ⟨h, rfl⟩
  · intro issue hmem
    have hne : (schema data).issues ≠ [] := by
      intro hnil; rw [hnil] at hmem; exact absurd hmem (List.not_mem_nil issue)
    rw [to_validation_error_issues_of_ne_nil _ hne]
    exact List.mem_map_of_mem convert_issue hmem

/-- C6 witness: a failed parse with two field-level issues — `validate` raises
an error whose issue list contains them both. -/
theorem C6_validate_raises_every_issue_witness :
    ∃ e : MonimeValidationError,
      validate (fun _ : Unit =>
        ParseResult.mk false
          [{ message := "name is required", path := some ["name"] },
           { message := "amount is required", path := some ["amount"] }]) () = .error e ∧
      ∀ issue ∈ (ParseResult.mk false
          [{ message := "name is required", path := some ["name"] },
           { message := "amount is required", path := some ["amount"] }]).issues,
        convert_issue issue ∈ e.issues :=
  C6_validate_raises_every_issue
    (fun _ : Unit =>
      ParseResult.mk false
        [{ message := "name is required", path := some ["name"] },
         { message := "amount is required", path := some ["amount"] }]) () rfl

/-- C9.  Every error thrown by `validate` carries a non-empty issue list; in
the degenerate case where the parser reports zero issues for a failed parse,
the thrown error carries the single fallback issue
`{ message: "Validation failed", field: "unknown" }`. -/
theorem C9_validate_error_issues_nonempty {α : Type} (schema : α → ParseResult)
    (data : α) (e : MonimeValidationError)
    (h : validate schema data = .error e) :
    e.issues ≠ [] ∧ ((schema data).issues = [] → e.issues = [fallback_issue]) := by
  obtain ⟨-, he⟩ := (validate_error_iff schema data e).mp h
  subst he
  constructor
  · cases hi : (schema data).issues with
    | nil => rw [to_validation_error_nil]; simp
    | cons a as =>
        rw [to_validation_error_issues_of_ne_nil _ (by simp)]
        simp
  · intro hi; rw [hi, to_validation_error_nil]

/-- C9 witness: a failed parse that reports zero issues — the thrown error
still carries the single fallback issue. -/
theorem C9_validate_error_issues_nonempty_witness :
    (to_validation_error []).issues ≠ [] ∧
      ((ParseResult.mk false []).issues = [] →
        (to_validation_error []).issues = [fallback_issue]) :=
  C9_validate_error_issues_nonempty (fun _ : Unit => ParseResult.mk false [])
    () (to_validation_error []) rfl

/-- The failure envelope of the Monime wire contract at HTTP status 400, as
documented in the comment inside `PaymentCode.createPaymentCode`. -/
def failure_envelope_400 : Json :=
  .obj [("success", .bool false),
        ("error", .obj
          [("code", .num 400),
           ("reason", .str "arguments_invalid"),
           ("message", .str "Phone number must be between 6 and 16 characters (inclusive)"),
           ("details", .arr [])])]

/-- C2 counterexample: a dispatched request whose HTTP response status is 400
(failure).  `PaymentCode.createPaymentCode` returns the decoded failure
envelope as data (`.ok`), and raises nothing — the claim that a failing status
always raises and never returns a decoded value is false for this operation. -/
theorem C2_counterexample_400_returned_as_data :
    createPaymentCode (.resolved 400 failure_envelope_400) = .ok failure_envelope_400 := rfl

/-- C2 amended: the legacy `PaymentCode` operations never raise.  The decoded
response body is returned as data regardless of the HTTP status — failure
envelopes included — and a thrown transport/decoding error is caught and
returned as the data value `{ success: false, messages: [message], result:
null }`.  (The spec's always-raise guarantee describes the current dispatch
core, not these legacy operations.) -/
theorem C2_amended_legacy_returns_data_never_raises :
    (∀ (status : Nat) (body : Json),
        createPaymentCode (.resolved status body) = .ok body) ∧
    (∀ message, createPaymentCode (.thrown message) = .ok (legacy_catch_value message)) ∧
    (∀ (status : Nat) (body : Json),
        getPaymentCode (.resolved status body) = .ok body) ∧
    (∀ message, getPaymentCode (.thrown message) = .ok (legacy_catch_value message)) :=
  ⟨fun _ _ => rfl, fun _ => rfl, fun _ _ => rfl, fun _ => rfl⟩

/-- The retry loop always makes between 1 and `remaining + 1` further attempts,
and resolves exactly as its last attempt's outcome dictates: the payload of a
final success, or the last classified error. -/
theorem retry_loop_spec (outcomes : Nat → AttemptOutcome) :
    ∀ (remaining attempt : Nat),
      attempt < (retry_loop outcomes attempt remaining).2 ∧
      (retry_loop outcomes attempt remaining).2 ≤ attempt + remaining + 1 ∧
      result_matches (retry_loop outcomes attempt remaining).1
        (outcomes ((retry_loop outcomes attempt remaining).2 - 1)) := by
  intro remaining
  induction remaining with
  | zero =>
      intro attempt
      cases h : outcomes attempt <;>
        simp [retry_loop, h, result_matches]
  | succ r ih =>
      intro attempt
      cases h : outcomes attempt with
      | success p => simp [retry_loop, h, result_matches]
      | apiError s ra =>
          by_cases hr : retryable (.apiError s ra) = true
          · have := ih (attempt + 1)
            simp only [retry_loop, h, hr, if_true]
            refine ⟨by omega, by omega, this.2.2⟩
          · simp only [retry_loop, h, hr, if_false, Bool.false_eq_true]
            simp [result_matches, h]
      | networkError =>
          have := ih (attempt + 1)
          simp only [retry_loop, h, retryable, if_true]
          refine ⟨by omega, by omega, this.2.2⟩
      | timeoutError => simp [retry_loop, h, retryable, result_matches]
      | cancelled => simp [retry_loop, h, retryable, result_matches]

/-- C3.  Ignoring jitter, the computed backoff delay is monotonically
non-decreasing in the attempt index (for a backoff multiplier of at least 1,
which every configuration uses) and never exceeds the configured backoff
ceiling. -/
theorem C3_backoff_monotone_and_capped
    (retry_delay retry_backoff max_backoff i j : Nat)
    (hb : 1 ≤ retry_backoff) (hij : i ≤ j) :
    calculate_retry_delay retry_delay retry_backoff max_backoff i ≤
      calculate_retry_delay retry_delay retry_backoff max_backoff j ∧
    ∀ k, calculate_retry_delay retry_delay retry_backoff max_backoff k ≤ max_backoff := by
  constructor
  · exact min_le_min
      (Nat.mul_le_mul_left retry_delay (Nat.pow_le_pow_right hb hij)) le_rfl
  · intro k; exact min_le_right _ _

/-- C3 witness: base delay 1000 ms, multiplier 2, ceiling 60000 ms, attempts
2 ≤ 3 — the delay does not decrease and stays within the ceiling. -/
theorem C3_backoff_monotone_and_capped_witness :
    calculate_retry_delay 1000 2 60000 2 ≤ calculate_retry_delay 1000 2 60000 3 ∧
      ∀ k, calculate_retry_delay 1000 2 60000 k ≤ 60000 :=
  C3_backoff_monotone_and_capped 1000 2 60000 2 3 (by decide) (by decide)

/-- C4.  For a logical call whose failures are all classified retryable, the
dispatch core makes at most `max_retries + 1` attempts and terminates by
resolving exactly as the last attempt's outcome dictates: the last success's
payload is returned, or the last classified error is raised. -/
theorem C4_retryable_attempts_bounded (outcomes : Nat → AttemptOutcome)
    (max_retries : Nat)
    (_h : ∀ i, is_success (outcomes i) = false → retryable (outcomes i) = true) :
    (dispatch outcomes max_retries).2 ≤ max_retries + 1 ∧
    result_matches (dispatch outcomes max_retries).1
      (outcomes ((dispatch outcomes max_retries).2 - 1)) := by
  have := retry_loop_spec outcomes max_retries 0
  exact ⟨by simpa [dispatch] using this.2.1, this.2.2⟩

/-- C4 witness: every attempt fails with HTTP 500 (retryable) and
`max_retries = 2` — the call makes at most 3 attempts and raises the last
classified error. -/
theorem C4_retryable_attempts_bounded_witness :
    (dispatch (fun _ => .apiError 500 none) 2).2 ≤ 3 ∧
    result_matches (dispatch (fun _ => .apiError 500 none) 2).1
      ((fun _ => AttemptOutcome.apiError 500 none)
        ((dispatch (fun _ => .apiError 500 none) 2).2 - 1)) :=
  C4_retryable_attempts_bounded (fun _ => .apiError 500 none) 2 (fun _ _ => rfl)

/-- C5.  A logical call whose first attempt fails with a non-retryable
classification — a 4xx status other than 429, a timeout, or a cancellation —
makes exactly one attempt and raises that first error, with no retry. -/
theorem C5_nonretryable_single_attempt (outcomes : Nat → AttemptOutcome)
    (max_retries : Nat)
    (h : (∃ s ra, outcomes 0 = .apiError s ra ∧ 400 ≤ s ∧ s < 500 ∧ s ≠ 429) ∨
         outcomes 0 = .timeoutError ∨ outcomes 0 = .cancelled) :
    dispatch outcomes max_retries = (.err (outcomes 0), 1) := by
  have hnr : retryable (outcomes 0) = false ∧ is_success (outcomes 0) = false := by
    rcases h with ⟨s, ra, h0, h400, h500, h429⟩ | h0 | h0 <;> rw [h0]
    · refine ⟨?_, rfl⟩
      simp only [retryable, retryable_status, Bool.or_eq_false_iff, beq_eq_false_iff_ne]
      omega
    · exact ⟨rfl, rfl⟩
    · exact ⟨rfl, rfl⟩
  cases h0 : outcomes 0 with
  | success p => rw [h0] at hnr; exact absurd hnr.2 (by simp [is_success])
  | apiError s ra =>
      rw [h0] at hnr
      cases max_retries <;> simp [dispatch, retry_loop, h0, hnr.1]
  | networkError => rw [h0] at hnr; exact absurd hnr.1 (by simp [retryable])
  | timeoutError => cases max_retries <;> simp [dispatch, retry_loop, h0, retryable]
  | cancelled => cases max_retries <;> simp [dispatch, retry_loop, h0, retryable]

/-- C5 witness: the first attempt fails with HTTP 404 and `max_retries = 3` —
the call makes exactly one attempt and raises that Api error. -/
theorem C5_nonretryable_single_attempt_witness :
    dispatch (fun _ => .apiError 404 none) 3 =
      (.err ((fun _ => AttemptOutcome.apiError 404 none) 0), 1) :=
  C5_nonretryable_single_attempt (fun _ => .apiError 404 none) 3
    (Or.inl ⟨404, none, rfl, by decide, by decide, by decide⟩)

/-- C1.  Every state-mutating outbound request carries exactly one idempotency
key.  In the legacy `createPaymentCode` the single `Idempotency-Key` header
holds the UUID generated once per call; in the dispatch core the per-attempt
headers of a mutating method carry exactly one key — the caller-supplied key
when present, else the key generated once per logical call — and the headers
(hence the key) are identical at every attempt index of the same logical call,
never regenerated per attempt. -/
theorem C1_idempotency_key_once_per_logical_call
    (config : ClientOptions) (uuid : String) (body : Json)
    (access_token space_id method : String) (has_body : Bool)
    (caller_key : Option String) (fresh_key : String)
    (custom : List (String × String)) (i j : Nat)
    (hm : is_mutating method = true)
    (hc : ∀ p ∈ custom, p.1 ≠ "Idempotency-Key") :
    idempotency_keys (createPaymentCode_options config uuid body).headers = [uuid] ∧
    idempotency_keys
        (attempt_headers access_token space_id method has_body caller_key
          fresh_key custom i) =
      [resolve_idempotency_key caller_key fresh_key] ∧
    attempt_headers access_token space_id method has_body caller_key
        fresh_key custom i =
      attempt_headers access_token space_id method has_body caller_key
        fresh_key custom j := by
  refine ⟨?_, ?_, rfl⟩
  · simp [idempotency_keys, createPaymentCode_options]
  · have hcf : custom.filter (fun p => p.1 == "Idempotency-Key") = [] := by
      rw [List.filter_eq_nil_iff]
      intro a ha
      simp only [beq_iff_eq]
      exact hc a ha
    cases has_body <;>
      simp [idempotency_keys, attempt_headers, hm, hcf, List.filter_append]

/-- C1 witness: a POST with no caller-supplied key, the fresh key `"k-1"`, no
custom headers — exactly one idempotency key in the legacy request and in the
dispatch core's headers, identical at attempts 0 and 5. -/
theorem C1_idempotency_key_once_per_logical_call_witness :
    idempotency_keys
        (createPaymentCode_options ⟨"spc-1", "tok"⟩ "uuid-1" Json.null).headers =
      ["uuid-1"] ∧
    idempotency_keys (attempt_headers "tok" "spc-1" "POST" true none "k-1" [] 0) =
      [resolve_idempotency_key none "k-1"] ∧
    attempt_headers "tok" "spc-1" "POST" true none "k-1" [] 0 =
      attempt_headers "tok" "spc-1" "POST" true none "k-1" [] 5 :=
  C1_idempotency_key_once_per_logical_call ⟨"spc-1", "tok"⟩ "uuid-1" Json.null
    "tok" "spc-1" "POST" true none "k-1" [] 0 5 (by decide)
    (fun p hp => absurd hp (List.not_mem_nil p))

/-- C7.  Query-parameter entries whose value is undefined are omitted entirely
from the resulting query string (the encoding of any mapping equals the
encoding of its defined entries alone, and is never an empty-string binding);
present scalars are serialized with their natural textual representation, and
`{ limit: 10, after: undefined }` serializes to `?limit=10`. -/
theorem C7_query_omits_undefined_entries :
    (∀ params : List (String × Option Scalar),
        build_query params = build_query (params.filter (fun p => p.2.isSome))) ∧
    build_query [("limit", some (.num 10)), ("after", none)] = "?limit=10" ∧
    (∀ n : Int, Scalar.toText (.num n) = toString n) ∧
    (∀ b : Bool, Scalar.toText (.bool b) = if b then "true" else "false") ∧
    (∀ s : String, Scalar.toText (.str s) = s) := by
  refine ⟨?_, by rfl, fun _ => rfl, fun _ => rfl, fun _ => rfl⟩
  intro params
  have hfm : params.filterMap (fun p => p.2.map (fun v => p.1 ++ "=" ++ v.toText)) =
      (params.filter (fun p => p.2.isSome)).filterMap
        (fun p => p.2.map (fun v => p.1 ++ "=" ++ v.toText)) := by
    induction params with
    | nil => rfl
    | cons p ps ih =>
        cases hv : p.2 with
        | none => simp [List.filterMap_cons, List.filter_cons, hv, ih]
        | some v => simp [List.filterMap_cons, List.filter_cons, hv, ih]
  unfold build_query
  rw [hfm]

/-- C8.  The client's id validation accepts every non-empty id with no
resource-kind prefix check: `validateId` succeeds on any non-empty string, and
`FinancialAccountModule.get`/`update` raise a client-side validation error for
the id exactly when validation is enabled and the id is empty (for `update`,
additionally when the update input itself fails its schema) — never because of
the id's prefix. -/
theorem C8_id_validation_has_no_prefix_check
    (sv : Bool) (id : String) (params : Option GetFinancialAccountParams)
    (inputSchema : Json → ParseResult) (input : Json) :
    (id ≠ "" → validateId id = .ok ()) ∧
    ((∃ e, FinancialAccountModule.get sv id params = .error e) ↔
      (sv = true ∧ id = "")) ∧
    ((∃ e, FinancialAccountModule.update sv id inputSchema input = .error e) ↔
      (sv = true ∧ (id = "" ∨ (inputSchema input).success = false))) := by
  have hvalid : ∀ id' : String, id' ≠ "" → validateId id' = .ok () := by
    intro id' h
    have hne : id'.isEmpty = false := by
      rw [Bool.eq_false_iff]
      intro he
      exact h ((String.isEmpty_iff id').mp he)
    unfold validateId validate IdSchema_parse
    simp [hne]
  have hempty : validateId "" = .error (to_validation_error
      [{ message := "id is required", path := none, input := some (.str "") }]) := rfl
  refine ⟨hvalid id, ?_, ?_⟩
  · cases sv with
    | false =>
        simp [FinancialAccountModule.get, except_pure_def, except_ok_bind,
          except_error_bind, except_map_ok, except_map_error]
    | true =>
        by_cases hid : id = ""
        · subst hid
          simp [FinancialAccountModule.get, hempty, except_pure_def,
            except_error_bind, except_ok_bind, except_map_ok, except_map_error]
        · simp [FinancialAccountModule.get, hvalid id hid, hid, except_pure_def,
            except_error_bind, except_ok_bind, except_map_ok, except_map_error]
  · cases sv with
    | false =>
        simp [FinancialAccountModule.update, except_pure_def, except_ok_bind,
          except_error_bind, except_map_ok, except_map_error]
    | true =>
        by_cases hid : id = ""
        · subst hid
          simp [FinancialAccountModule.update, hempty, except_pure_def,
            except_error_bind, except_ok_bind, except_map_ok, except_map_error]
        · cases hs : (inputSchema input).success with
          | true =>
              simp [FinancialAccountModule.update, hvalid id hid, hid,
                validate, hs, except_pure_def, except_error_bind,
                except_ok_bind, except_map_ok, except_map_error]
          | false =>
              simp [FinancialAccountModule.update, hvalid id hid, hid,
                validate, hs, except_pure_def, except_error_bind,
                except_ok_bind, except_map_ok, except_map_error]

/-- C8 witness: the id `"pc-999"` — non-empty, and not carrying the
financial-account prefix `"fa-"` — passes `validateId`. -/
theorem C8_id_validation_has_no_prefix_check_witness :
    validateId "pc-999" = .ok () :=
  (C8_id_validation_has_no_prefix_check true "pc-999" none
    (fun _ => ParseResult.mk true []) Json.null).1 (by decide)

/-- C10.  `FinancialAccountModule.list` raises a client-side validation error
exactly when validation is enabled, `params.limit` is defined and the limit
fails its schema; whenever the limit is undefined the call proceeds to the
HTTP request with no validation of the remaining fields (`uvan`, `reference`,
`withBalance`, `after`), whatever they contain. -/
theorem C10_list_validates_only_limit
    (sv : Bool) (limitSchema : Int → ParseResult)
    (params : Option ListFinancialAccountsParams) :
    ((∃ e, FinancialAccountModule.list sv limitSchema params = .error e) ↔
      (sv = true ∧ ∃ l, params.bind (·.limit) = some l ∧
        (limitSchema l).success = false)) ∧
    (∀ p : ListFinancialAccountsParams, p.limit = none →
      FinancialAccountModule.list sv limitSchema (some p) =
        .ok { method := "GET", path := "/financial-accounts",
              params := some
                [("uvan", p.uvan.map Scalar.str),
                 ("reference", p.reference.map Scalar.str),
                 ("withBalance", p.withBalance.map Scalar.bool),
                 ("limit", none),
                 ("after", p.after.map Scalar.str)] }) := by
  constructor
  · cases sv with
    | false =>
        simp [FinancialAccountModule.list, except_pure_def, except_ok_bind,
          except_error_bind, except_map_ok, except_map_error]
    | true =>
        cases hl : params.bind (·.limit) with
        | none =>
            simp [FinancialAccountModule.list, hl, except_pure_def,
              except_error_bind, except_ok_bind, except_map_ok, except_map_error]
        | some l =>
            cases hs : (limitSchema l).success with
            | true =>
                simp [FinancialAccountModule.list, hl, validate, hs,
                  except_pure_def, except_error_bind, except_ok_bind,
                  except_map_ok, except_map_error]
            | false =>
                simp [FinancialAccountModule.list, hl, validate, hs,
                  except_pure_def, except_error_bind, except_ok_bind,
                  except_map_ok, except_map_error]
  · intro p hp
    have hl : (some p).bind (·.limit) = none := by simp [hp]
    cases sv <;>
      simp [FinancialAccountModule.list, hl, hp, except_pure_def,
        except_error_bind, except_ok_bind, except_map_ok, except_map_error]

/-- C10 witness: validation enabled, an always-failing limit schema, and
params whose limit is undefined but whose other fields are populated — the
call proceeds to the GET request without raising. -/
theorem C10_list_validates_only_limit_witness :
    FinancialAccountModule.list true (fun _ => ParseResult.mk false [])
        (some { uvan := some "not-a-uvan", reference := some "", withBalance := some true,
                limit := none, after := some "junk-cursor" }) =
      .ok { method := "GET", path := "/financial-accounts",
            params := some
              [("uvan", some (.str "not-a-uvan")),
               ("reference", some (.str "")),
               ("withBalance", some (.bool true)),
               ("limit", none),
               ("after", some (.str "junk-cursor"))] } :=
  (C10_list_validates_only_limit true (fun _ => ParseResult.mk false [])
      (some { uvan := some "not-a-uvan", reference := some "", withBalance := some true,
              limit := none, after := some "junk-cursor" })).2
    { uvan := some "not-a-uvan", reference := some "", withBalance := some true,
      limit := none, after := some "junk-cursor" } rfl

end Monime
